import Mathlib

/-!
Shallow embedding of the yuuka-comfyui auto-update module.

The embedded code is `update.py` (command runner, update checker, update
applier, one-shot orchestrator) and `yuuka_auto_update.py` (bootstrap
loader).  Python strings are Lean `String`s, but every Python string
operation used by the source (`strip`, `lower`, `endswith`, `splitlines`,
truthiness) is re-implemented here over the character list so that the
kernel can evaluate it; the subprocess boundary is modelled by a `World`
that maps each argument list to the outcome the operating system would
produce, and every observable side effect (a subprocess invocation, a
printed log line) is recorded in an explicit event list.
-/

namespace Yuuka

/-- Characters stripped by Python `str.strip()` with no argument. -/
def pyWs : List Char := [' ', '\t', '\n', '\r', '\x0b', '\x0c']

/-- Python `s.strip()`: remove leading and trailing whitespace. -/
def pyStrip (s : String) : String :=
  ⟨((s.data.dropWhile (pyWs.contains ·)).reverse.dropWhile (pyWs.contains ·)).reverse⟩

/-- Lower-case one character, ASCII range (what the source ever feeds it). -/
def pyLowerChar (c : Char) : Char :=
  if 65 ≤ c.toNat ∧ c.toNat ≤ 90 then Char.ofNat (c.toNat + 32) else c

/-- Python `s.lower()` restricted to ASCII input. -/
def pyLower (s : String) : String := ⟨s.data.map pyLowerChar⟩

/-- Python `s.endswith(suffix)`: raw suffix test on the whole string. -/
def pyEndsWith (s suffix : String) : Bool := suffix.data.isSuffixOf s.data

/-- Helper for `pySplitlines`, accumulating the current line in reverse. -/
def splitlinesAux : List Char → List Char → List String
  | [], acc => if acc.isEmpty then [] else [⟨acc.reverse⟩]
  | '\r' :: '\n' :: rest, acc => (⟨acc.reverse⟩ : String) :: splitlinesAux rest []
  | '\n' :: rest, acc => (⟨acc.reverse⟩ : String) :: splitlinesAux rest []
  | '\r' :: rest, acc => (⟨acc.reverse⟩ : String) :: splitlinesAux rest []
  | c :: rest, acc => splitlinesAux rest (c :: acc)

/-- Python `s.splitlines()` for the line boundaries git output can contain
(`\n`, `\r\n`, `\r`); no trailing empty line for a trailing newline. -/
def pySplitlines (s : String) : List String := splitlinesAux s.data []

/-- Python truthiness of an `Optional[str]`: `None` and `""` are falsy. -/
def pyTruthyStr : Option String → Bool
  | none => false
  | some s => !(s == "")

/-- Python `f"..."` rendering of an `Optional[str]`: `None` prints as `"None"`. -/
def pyStrOpt : Option String → String
  | none => "None"
  | some s => s

/-- Outcome of one `subprocess.run` call, as seen by `_run_git_command`:
exit code 0 with captured stdout, a missing executable
(`FileNotFoundError`), a non-zero exit with captured stderr and stdout
(`subprocess.CalledProcessError`), or any other exception. -/
inductive CmdOutcome where
  | success (stdout : String)
  | fileNotFound
  | calledProcessError (stderr stdout : String)
  | otherException (msg : String)
deriving DecidableEq

/-- Observable side effect: a subprocess invocation or a printed line. -/
inductive Event where
  | gitCmd (args : List String)
  | logLine (line : String)
deriving DecidableEq

/-- Embedding of `_log` (update.py line 29): the printed line, with the
fixed tag prefix. -/
def _log (message : String) : Event := .logLine ("[Yuuka Auto Update] " ++ message)

/-- The external environment of one process: whether `REPO_ROOT/.git`
exists, the value of the `YUUKA_COMFYUI_AUTO_UPDATE` environment variable
(`none` = unset), what the operating system does with each subprocess
argument list, and whether `REPO_ROOT/requirements.txt` exists. -/
structure World where
  gitDirExists : Bool
  env : Option String
  run : List String → CmdOutcome
  requirementsExists : Bool

/-- Embedding of `_is_git_repo` (update.py line 33). -/
def _is_git_repo (w : World) : Bool := w.gitDirExists

/-- Embedding of `_run_git_command` (update.py lines 37-61).  Returns the
Python pair `(stdout_or_None, error_or_None)` together with the one
subprocess event.  On exit 0 the stdout is stripped; `FileNotFoundError`
yields the fixed install-git message; a non-zero exit yields
`exc.stderr.strip() or exc.stdout.strip()` (Python `or`: the stdout
fallback is taken when the stripped stderr is empty, and the result can
itself be the empty string); any other exception yields `str(exc)`. -/
def _run_git_command (w : World) (command : List String) :
    (Option String × Option String) × List Event :=
  (match w.run command with
    | .success out => (some (pyStrip out), none)
    | .fileNotFound =>
        (none, some "Git executable not found. Please install Git and make sure it is on PATH.")
    | .calledProcessError se so =>
        (none, some (if pyStrip se == "" then pyStrip so else pyStrip se))
    | .otherException msg => (none, some msg),
   [.gitCmd command])

/-- Embedding of the status dictionary `UPDATE_STATUS` (update.py lines
19-24).  Only the four listed keys are ever accessed by the source; any
other key would raise `KeyError`, modelled by the unused `-2` default. -/
def UPDATE_STATUS : String → Int
  | "UP_TO_DATE" => 0
  | "AHEAD" => 1
  | "ERROR" => -1
  | "SKIP" => 2
  | _ => -2

/-- Embedding of the list comprehension in update.py line 96:
`[line.strip() for line in s.splitlines() if line.strip()]`. -/
def parseChangedFiles (s : String) : List String :=
  ((pySplitlines s).map pyStrip).filter (fun l => !(l == ""))

/-- Embedding of `check_for_updates` (update.py lines 64-99).  The first
component is `some (status, message, dependencies_changed)` on normal
return and `none` when the Python code would raise (only possible at line
96, where a silently-failed diff gives `changed_files_str = None` and
`None.splitlines()` raises `AttributeError`); the second component is the
list of side effects in order. -/
def check_for_updates (w : World) : Option (Int × String × Bool) × List Event :=
  if !(_is_git_repo w) then
    (some (UPDATE_STATUS "SKIP", "Git repository not detected; auto-update skipped.", false), [])
  else
    let r1 := _run_git_command w ["git", "fetch"]
    if pyTruthyStr r1.1.2 then
      (some (UPDATE_STATUS "ERROR", "Failed to fetch from remote: " ++ pyStrOpt r1.1.2, false),
       r1.2)
    else
      let r2 := _run_git_command w ["git", "rev-parse", "HEAD"]
      let local_hash := r2.1.1
      if pyTruthyStr r2.1.2 then
        (some (UPDATE_STATUS "ERROR", "Cannot determine local HEAD: " ++ pyStrOpt r2.1.2, false),
         r1.2 ++ r2.2)
      else
        let r3 := _run_git_command w ["git", "rev-parse", "@{u}"]
        let remote_hash := r3.1.1
        if pyTruthyStr r3.1.2 then
          (some (UPDATE_STATUS "ERROR",
             "Cannot determine upstream commit. Is this branch tracking a remote? Git error: "
               ++ pyStrOpt r3.1.2, false),
           r1.2 ++ r2.2 ++ r3.2)
        else
          if local_hash == remote_hash then
            (some (UPDATE_STATUS "UP_TO_DATE", "Repository already up to date.", false),
             r1.2 ++ r2.2 ++ r3.2)
          else
            let r4 := _run_git_command w
              ["git", "diff", "--name-only", pyStrOpt local_hash ++ ".." ++ pyStrOpt remote_hash]
            if pyTruthyStr r4.1.2 then
              (some (UPDATE_STATUS "AHEAD", "Update detected (changed files could not be listed).", true),
               r1.2 ++ r2.2 ++ r3.2 ++ r4.2)
            else
              match r4.1.1 with
              | none => (none, r1.2 ++ r2.2 ++ r3.2 ++ r4.2)
              | some changed_files_str =>
                let changed_files := parseChangedFiles changed_files_str
                let dependencies_changed :=
                  changed_files.contains "requirements.txt"
                    || changed_files.any (fun name => pyEndsWith name "plugin.json")
                (some (UPDATE_STATUS "AHEAD", "Update detected on remote branch.", dependencies_changed),
                 r1.2 ++ r2.2 ++ r3.2 ++ r4.2)

/-- Embedding of `perform_update` (update.py lines 102-114): log the
attempt, run `git pull --ff-only`, and return `True` iff the error slot is
falsy (so a non-zero exit whose stderr and stdout are both empty also
returns `True`). -/
def perform_update (w : World) : Bool × List Event :=
  let r := _run_git_command w ["git", "pull", "--ff-only"]
  let evs := [_log "Attempting to fast-forward repository with \x27git pull --ff-only\x27."] ++ r.2
  if pyTruthyStr r.1.2 then
    (false, evs ++ [_log ("Failed to apply update automatically: " ++ pyStrOpt r.1.2)])
  else
    if pyTruthyStr r.1.1 then
      (true, evs ++ [_log ("Pull output:\n" ++ pyStrOpt r.1.1)])
    else
      (true, evs ++ [_log "Repository already up to date after pull."])

/-- Embedding of `auto_update_if_needed` (update.py lines 117-159).  The
module-global `_AUTO_UPDATE_RAN` is passed in as `ran` and returned as the
second component; the first component is `some returnValue` on normal
return and `none` when `check_for_updates` would raise; the third is the
ordered list of side effects of this call. -/
def auto_update_if_needed (force : Bool) (ran : Bool) (w : World) :
    Option Bool × Bool × List Event :=
  if ran && !force then (some false, ran, [])
  else
    let env_value := pyLower (pyStrip (w.env.getD "1"))
    if env_value == "0" || env_value == "false" || env_value == "off" then
      (some false, true,
       [_log "Auto-update disabled via YUUKA_COMFYUI_AUTO_UPDATE environment variable."])
    else
      match check_for_updates w with
      | (none, evs) => (none, true, evs)
      | (some st, evs) =>
        if st.1 == UPDATE_STATUS "ERROR" then (some false, true, evs ++ [_log st.2.1])
        else if st.1 == UPDATE_STATUS "SKIP" then (some false, true, evs ++ [_log st.2.1])
        else if st.1 == UPDATE_STATUS "UP_TO_DATE" then (some false, true, evs)
        else
          let evs2 := evs ++ [_log st.2.1]
          let pu := perform_update w
          if !pu.1 then (some false, true, evs2 ++ pu.2)
          else
            let evs3 := evs2 ++ pu.2
              ++ [_log "Repository updated successfully. Please restart ComfyUI to load the new code."]
            if st.2.2 && w.requirementsExists then
              (some true, true,
               evs3 ++ [_log "Detected dependency changes. Run \x27pip install -r requirements.txt\x27 if additional packages are required."])
            else (some true, true, evs3)

/-- Sequence of calls to `auto_update_if_needed` with `force = False`,
threading the module-global flag; each element records the call result
and that call's side effects. -/
def callSeq : Bool → List World → List (Option Bool × List Event)
  | _, [] => []
  | ran, w :: ws =>
    let r := auto_update_if_needed false ran w
    (r.1, r.2.2) :: callSeq r.2.1 ws

/-- Abstraction of a loaded Python module object, by the only attributes
the bootstrap loader inspects: whether it has an `auto_update_if_needed`
attribute, and whether calling that attribute raises (`some msg`) or
returns normally (`none`).  A module object is always truthy. -/
structure PyModule where
  hasAutoUpdate : Bool
  raisesOnCall : Option String
deriving DecidableEq

/-- Outcome of `spec.loader.exec_module(module)`: the module body runs to
completion, or it raises with the given message. -/
inductive ExecOutcome where
  | ok
  | raises (msg : String)
deriving DecidableEq

/-- Embedding of `_MODULE_NAME` (yuuka_auto_update.py line 14). -/
def _MODULE_NAME : String := "yuuka_comfyui._internal_update"

/-- State and environment seen by the bootstrap loader: the `sys.modules`
registry (as a map from module name to module object), whether
`update.py` exists next to the loader, whether
`importlib.util.spec_from_file_location` yields a spec with a loader, what
`exec_module` would do, and which module object it would produce. -/
structure BootState where
  modules : String → Option PyModule
  updateFileExists : Bool
  specOk : Bool
  execOutcome : ExecOutcome
  loadedModule : PyModule

/-- Embedding of `_load_update_module` (yuuka_auto_update.py lines 17-39).
Returns `Except` (`.error` = the function re-raises, as the bare `raise`
at line 38 does) of `Option PyModule` (the Python return value, possibly
`None`), together with the updated state: on a successful load the module
is registered in `sys.modules`; when `exec_module` raises, the
registration made just before it is popped again (lines 32-37). -/
def _load_update_module (st : BootState) : Except String (Option PyModule) × BootState :=
  match st.modules _MODULE_NAME with
  | some m => (.ok (some m), st)
  | none =>
    if !st.updateFileExists then (.ok none, st)
    else if !st.specOk then (.ok none, st)
    else
      match st.execOutcome with
      | .ok =>
          (.ok (some st.loadedModule),
           { st with modules :=
               fun k => if k == _MODULE_NAME then some st.loadedModule else st.modules k })
      | .raises msg =>
          (.error msg,
           { st with modules :=
               fun k => if k == _MODULE_NAME then none else st.modules k })

/-- Embedding of `ensure_auto_update` (yuuka_auto_update.py lines 42-49):
load the module, call its `auto_update_if_needed` when present, and catch
every exception, printing the catch-all line instead of raising.  The
function is total: there is no exception channel in its result. -/
def ensure_auto_update (st : BootState) : BootState × List Event :=
  match _load_update_module st with
  | (.error msg, st2) =>
      (st2, [.logLine ("[Yuuka Auto Update] Skipping due to unexpected error: " ++ msg)])
  | (.ok none, st2) => (st2, [])
  | (.ok (some m), st2) =>
    if m.hasAutoUpdate then
      match m.raisesOnCall with
      | some msg =>
          (st2, [.logLine ("[Yuuka Auto Update] Skipping due to unexpected error: " ++ msg)])
      | none => (st2, [])
    else (st2, [])

/-- Test-harness world for the five git invocations `check_for_updates`
and `perform_update` can make: the four fixed argument lists map to the
given outcomes, and the `git diff --name-only <range>` call (whose fourth
argument is computed at run time) falls through to `diff`. -/
def gitWorld (env : Option String) (fetch rph rpu diff pull : CmdOutcome)
    (req : Bool) : World where
  gitDirExists := true
  env := env
  requirementsExists := req
  run := fun c =>
    match c with
    | ["git", "fetch"] => fetch
    | ["git", "rev-parse", "HEAD"] => rph
    | ["git", "rev-parse", "@{u}"] => rpu
    | ["git", "pull", "--ff-only"] => pull
    | _ => diff

end Yuuka

namespace Yuuka

/-- Helper: a call with the one-shot flag already set and `force = False`
is a definitional no-op. -/
theorem auto_update_gated (w : World) :
    auto_update_if_needed false true w = (some false, true, []) := rfl

/-- Helper: the first `force = False` call leaves the one-shot flag set,
whatever the world does. -/
theorem auto_update_sets_flag (w : World) :
    (auto_update_if_needed false false w).2.1 = true := by
  unfold auto_update_if_needed
  repeat' split
  all_goals dsimp only
  all_goals try (split_ifs <;> rfl)
  all_goals simp_all

/-- Helper: once the flag is set, every further `force = False` call
returns `False` with no side effects. -/
theorem callSeq_after_flag (ws : List World) :
    callSeq true ws = ws.map (fun _ => ((some false : Option Bool), ([] : List Event))) := by
  induction ws with
  | nil => rfl
  | cons w ws ih =>
    rw [show callSeq true (w :: ws) = ((some false : Option Bool), ([] : List Event)) :: callSeq true ws from rfl, ih]
    rfl

/-- C1: in one process, calling `auto_update_if_needed` with `force =
False` any number of times starting from the initial flag state performs
side effects (subprocess invocations, filesystem mutation via `git pull`,
log lines) only in the first call, which sets the one-shot flag; every
later call returns `False` immediately with an empty side-effect list. -/
theorem auto_update_one_shot (w : World) (ws : List World) :
    callSeq false (w :: ws) =
      ((auto_update_if_needed false false w).1, (auto_update_if_needed false false w).2.2)
        :: ws.map (fun _ => ((some false : Option Bool), ([] : List Event))) := by
  show ((auto_update_if_needed false false w).1, (auto_update_if_needed false false w).2.2)
      :: callSeq (auto_update_if_needed false false w).2.1 ws = _
  rw [auto_update_sets_flag, callSeq_after_flag]

end Yuuka

namespace Yuuka

/-- Value of the environment toggle after the `strip().lower()` of
update.py line 128 (`"1"` when the variable is unset). -/
def envVal (w : World) : String := pyLower (pyStrip (w.env.getD "1"))

/-- Helper: `check_for_updates` never reads the environment toggle. -/
theorem check_for_updates_env_irrel (w : World) (e : Option String) :
    check_for_updates { w with env := e } = check_for_updates w := rfl

/-- C2: when the toggle value strips and lower-cases to `"0"`, `"false"`
or `"off"`, the first call logs the disabled notice and returns `False`
with no other side effect (in particular no subprocess event); any other
value, including the unset default `"1"`, makes the call behave exactly
as with the default enabled value. -/
theorem env_toggle_disables (w : World) :
    ((envVal w = "0" ∨ envVal w = "false" ∨ envVal w = "off") →
      auto_update_if_needed false false w =
        (some false, true,
         [_log "Auto-update disabled via YUUKA_COMFYUI_AUTO_UPDATE environment variable."]))
    ∧ ((envVal w ≠ "0" ∧ envVal w ≠ "false" ∧ envVal w ≠ "off") →
      auto_update_if_needed false false w =
        auto_update_if_needed false false { w with env := some "1" }) := by
  constructor
  · intro h
    have hb : (envVal w == "0" || envVal w == "false" || envVal w == "off") = true := by
      rcases h with h | h | h <;> simp [h]
    unfold auto_update_if_needed
    dsimp only
    rw [show envVal w = pyLower (pyStrip (w.env.getD "1")) from rfl] at hb
    simp [hb]
  · intro h
    obtain ⟨h0, hf, ho⟩ := h
    have hb : (envVal w == "0" || envVal w == "false" || envVal w == "off") = false := by
      rw [beq_eq_false_iff_ne.mpr h0, beq_eq_false_iff_ne.mpr hf, beq_eq_false_iff_ne.mpr ho]
      rfl
    unfold auto_update_if_needed
    dsimp only
    rw [show envVal w = pyLower (pyStrip (w.env.getD "1")) from rfl] at hb
    simp only [hb]
    rfl

/-- Witness for C2 at two concrete worlds: `" OFF "` disables the flow
with exactly one log line, and `"yes"` behaves as the enabled default. -/
theorem env_toggle_disables_witness :
    (auto_update_if_needed false false (gitWorld (some " OFF ") (.success "") (.success "a")
        (.success "b") (.success "") (.success "") true) =
      (some false, true,
       [_log "Auto-update disabled via YUUKA_COMFYUI_AUTO_UPDATE environment variable."]))
    ∧ (auto_update_if_needed false false (gitWorld (some "yes") (.success "") (.success "a")
        (.success "b") (.success "") (.success "") true) =
      auto_update_if_needed false false
        { gitWorld (some "yes") (.success "") (.success "a") (.success "b") (.success "")
            (.success "") true with env := some "1" }) :=
  ⟨(env_toggle_disables _).1 (by decide),
   (env_toggle_disables _).2 (by decide)⟩

end Yuuka

namespace Yuuka

/-- Helper: evaluation of `check_for_updates` on the ahead-with-listing
path: fetch and both rev-parses succeed, the two stripped hashes differ,
and the diff listing succeeds. -/
theorem check_ahead (a b files : String) (h : pyStrip a ≠ pyStrip b)
    (env : Option String) (fo : String) (p : CmdOutcome) (req : Bool) :
    check_for_updates
        (gitWorld env (.success fo) (.success a) (.success b) (.success files) p req) =
      (some (UPDATE_STATUS "AHEAD", "Update detected on remote branch.",
         (parseChangedFiles (pyStrip files)).contains "requirements.txt"
           || (parseChangedFiles (pyStrip files)).any (fun name => pyEndsWith name "plugin.json")),
       [.gitCmd ["git", "fetch"], .gitCmd ["git", "rev-parse", "HEAD"],
        .gitCmd ["git", "rev-parse", "@{u}"],
        .gitCmd ["git", "diff", "--name-only", pyStrip a ++ ".." ++ pyStrip b]]) := by
  have hb : (pyStrip a == pyStrip b) = false := beq_eq_false_iff_ne.mpr h
  simp only [check_for_updates, _run_git_command, _is_git_repo, gitWorld, pyTruthyStr, pyStrOpt]
  simp only [show ((some (pyStrip a) : Option String) == some (pyStrip b)) = (pyStrip a == pyStrip b)
    from rfl, hb]
  rfl

/-- C3: on the successful-listing path with differing identifiers, the
status is `AHEAD` and the dependency-changed flag is true exactly when
the parsed changed-path list contains the entry `"requirements.txt"` or
some entry whose characters end in `"plugin.json"`. -/
theorem dep_classification (a b files : String) (h : pyStrip a ≠ pyStrip b) :
    (check_for_updates (gitWorld none (.success "") (.success a) (.success b)
        (.success files) (.success "") true)).1
      = some (UPDATE_STATUS "AHEAD", "Update detected on remote branch.",
          (parseChangedFiles (pyStrip files)).contains "requirements.txt"
            || (parseChangedFiles (pyStrip files)).any (fun n => pyEndsWith n "plugin.json"))
    ∧ (((parseChangedFiles (pyStrip files)).contains "requirements.txt"
          || (parseChangedFiles (pyStrip files)).any (fun n => pyEndsWith n "plugin.json")) = true
        ↔ "requirements.txt" ∈ parseChangedFiles (pyStrip files)
          ∨ ∃ q ∈ parseChangedFiles (pyStrip files), pyEndsWith q "plugin.json" = true) := by
  constructor
  · rw [check_ahead a b files h]
  · simp [List.any_eq_true]

/-- Witness for C3: with hashes `"aaa"` and `"bbb"`, the listing
`"subdir/plugin.json"` classifies as dependency-changed and the listing
`"readme.md"` does not. -/
theorem dep_classification_witness :
    ((check_for_updates (gitWorld none (.success "") (.success "aaa") (.success "bbb")
        (.success "subdir/plugin.json") (.success "") true)).1
      = some (UPDATE_STATUS "AHEAD", "Update detected on remote branch.", true))
    ∧ ((check_for_updates (gitWorld none (.success "") (.success "aaa") (.success "bbb")
        (.success "readme.md") (.success "") true)).1
      = some (UPDATE_STATUS "AHEAD", "Update detected on remote branch.", false)) :=
  ⟨((dep_classification "aaa" "bbb" "subdir/plugin.json" (by decide)).1).trans (by decide),
   ((dep_classification "aaa" "bbb" "readme.md" (by decide)).1).trans (by decide)⟩

end Yuuka

namespace Yuuka

/-- Helper: the harness world runs `git fetch` with the first outcome. -/
theorem gitWorld_fetch (env : Option String) (f1 f2 f3 d p : CmdOutcome) (req : Bool) :
    (gitWorld env f1 f2 f3 d p req).run ["git", "fetch"] = f1 := rfl

/-- Helper: the harness world resolves `HEAD` with the second outcome. -/
theorem gitWorld_rph (env : Option String) (f1 f2 f3 d p : CmdOutcome) (req : Bool) :
    (gitWorld env f1 f2 f3 d p req).run ["git", "rev-parse", "HEAD"] = f2 := rfl

/-- Helper: the harness world resolves the upstream with the third outcome. -/
theorem gitWorld_rpu (env : Option String) (f1 f2 f3 d p : CmdOutcome) (req : Bool) :
    (gitWorld env f1 f2 f3 d p req).run ["git", "rev-parse", "@{u}"] = f3 := rfl

/-- Helper: the harness world answers any `git diff --name-only` call,
whatever its computed range argument, with the fourth outcome. -/
theorem gitWorld_diff (env : Option String) (f1 f2 f3 d p : CmdOutcome) (req : Bool)
    (s : String) :
    (gitWorld env f1 f2 f3 d p req).run ["git", "diff", "--name-only", s] = d := rfl

/-- Helper: the harness world runs `git pull --ff-only` with the fifth
outcome. -/
theorem gitWorld_pull (env : Option String) (f1 f2 f3 d p : CmdOutcome) (req : Bool) :
    (gitWorld env f1 f2 f3 d p req).run ["git", "pull", "--ff-only"] = p := rfl

/-- Helper: the harness world is a git repository. -/
theorem gitWorld_repo (env : Option String) (f1 f2 f3 d p : CmdOutcome) (req : Bool) :
    _is_git_repo (gitWorld env f1 f2 f3 d p req) = true := rfl

/-- Helper: evaluation of `check_for_updates` when fetch and both
rev-parses succeed and the stripped hashes agree. -/
theorem check_uptodate (a b : String) (h : pyStrip a = pyStrip b)
    (env : Option String) (fo : String) (p4 p5 : CmdOutcome) (req : Bool) :
    check_for_updates (gitWorld env (.success fo) (.success a) (.success b) p4 p5 req) =
      (some (UPDATE_STATUS "UP_TO_DATE", "Repository already up to date.", false),
       [.gitCmd ["git", "fetch"], .gitCmd ["git", "rev-parse", "HEAD"],
        .gitCmd ["git", "rev-parse", "@{u}"]]) := by
  simp only [check_for_updates, _run_git_command, _is_git_repo, gitWorld, pyTruthyStr, pyStrOpt]
  simp only [show ((some (pyStrip a) : Option String) == some (pyStrip b))
      = (pyStrip a == pyStrip b) from rfl, h, beq_self_eq_true]
  rfl

/-- C6: when the two resolved identifiers are equal, `check_for_updates`
returns `UP_TO_DATE` with dependency-changed `False`, and the
orchestrator returns `False` with the three probe subprocess events as
its only side effects: no log line and no `git pull` invocation. -/
theorem uptodate_silent (a b : String) (h : pyStrip a = pyStrip b) :
    check_for_updates (gitWorld none (.success "") (.success a) (.success b)
        (.success "") (.success "") true) =
      (some (UPDATE_STATUS "UP_TO_DATE", "Repository already up to date.", false),
       [.gitCmd ["git", "fetch"], .gitCmd ["git", "rev-parse", "HEAD"],
        .gitCmd ["git", "rev-parse", "@{u}"]])
    ∧ auto_update_if_needed false false (gitWorld none (.success "") (.success a) (.success b)
        (.success "") (.success "") true) =
      (some false, true,
       [.gitCmd ["git", "fetch"], .gitCmd ["git", "rev-parse", "HEAD"],
        .gitCmd ["git", "rev-parse", "@{u}"]]) := by
  have hc := check_uptodate a b h none "" (.success "") (.success "") true
  refine ⟨hc, ?_⟩
  unfold auto_update_if_needed
  rw [hc]
  rfl

/-- Witness for C6 at the concrete hash `"abc"` on both sides. -/
theorem uptodate_silent_witness :
    auto_update_if_needed false false (gitWorld none (.success "") (.success "abc")
        (.success "abc") (.success "") (.success "") true) =
      (some false, true,
       [.gitCmd ["git", "fetch"], .gitCmd ["git", "rev-parse", "HEAD"],
        .gitCmd ["git", "rev-parse", "@{u}"]]) :=
  (uptodate_silent "abc" "abc" (by decide)).2

/-- C4 counterexample: the claim quotes the message
`"failed to fetch from remote: network unreachable"`, but the code builds
`f"Failed to fetch from remote: {error}"` with a capital F, so the
returned tuple is not the quoted one. -/
theorem fetch_error_quoted_message_refuted :
    (check_for_updates (gitWorld none (.calledProcessError "network unreachable" "")
        (.success "a") (.success "b") (.success "") (.success "") true)).1
      ≠ some (UPDATE_STATUS "ERROR", "failed to fetch from remote: network unreachable", false) := by
  decide

/-- C4 as amended: a fetch failure whose stripped stderr is
`"network unreachable"` makes `check_for_updates` return exactly
`(ERROR, "Failed to fetch from remote: network unreachable", False)`
after the single fetch invocation, and the orchestrator logs exactly that
message and returns `False` without running either rev-parse command. -/
theorem fetch_error_terminal :
    check_for_updates (gitWorld none (.calledProcessError "network unreachable" "")
        (.success "a") (.success "b") (.success "") (.success "") true) =
      (some (UPDATE_STATUS "ERROR", "Failed to fetch from remote: network unreachable", false),
       [.gitCmd ["git", "fetch"]])
    ∧ auto_update_if_needed false false (gitWorld none
        (.calledProcessError "network unreachable" "") (.success "a") (.success "b")
        (.success "") (.success "") true) =
      (some false, true,
       [.gitCmd ["git", "fetch"], _log "Failed to fetch from remote: network unreachable"]) := by
  decide

/-- C7 counterexample: the claim quotes the message
`"update detected (changed files could not be listed)"`, but the code
returns `"Update detected (changed files could not be listed)."` (capital
U, trailing period), so the quoted tuple is not returned. -/
theorem listing_unavailable_quoted_message_refuted :
    (check_for_updates (gitWorld none (.success "") (.success "aaa") (.success "bbb")
        (.calledProcessError "boom" "") (.success "") true)).1
      ≠ some (UPDATE_STATUS "AHEAD", "update detected (changed files could not be listed)", true) := by
  decide

/-- C7 as amended: when the identifiers differ and the diff listing
command fails with a truthy error, `check_for_updates` degrades to
`(AHEAD, "Update detected (changed files could not be listed).", True)`:
the dependency-changed flag is forced `True`. -/
theorem listing_unavailable (a b e : String) (h : pyStrip a ≠ pyStrip b)
    (he : pyStrip e ≠ "") :
    check_for_updates (gitWorld none (.success "") (.success a) (.success b)
        (.calledProcessError e "") (.success "") true) =
      (some (UPDATE_STATUS "AHEAD", "Update detected (changed files could not be listed).", true),
       [.gitCmd ["git", "fetch"], .gitCmd ["git", "rev-parse", "HEAD"],
        .gitCmd ["git", "rev-parse", "@{u}"],
        .gitCmd ["git", "diff", "--name-only", pyStrip a ++ ".." ++ pyStrip b]]) := by
  have hb : (pyStrip a == pyStrip b) = false := beq_eq_false_iff_ne.mpr h
  have hb2 : (pyStrip e == "") = false := beq_eq_false_iff_ne.mpr he
  simp only [check_for_updates, _run_git_command, _is_git_repo, pyTruthyStr, pyStrOpt,
    gitWorld_repo, gitWorld_fetch, gitWorld_rph, gitWorld_rpu, gitWorld_diff]
  simp only [show ((some (pyStrip a) : Option String) == some (pyStrip b))
      = (pyStrip a == pyStrip b) from rfl, hb, hb2, Bool.false_eq_true, if_false]
  simp only [hb2, Bool.not_false]
  rfl

/-- Witness for C7 at hashes `"aaa"`, `"bbb"` and diff stderr `"boom"`. -/
theorem listing_unavailable_witness :
    check_for_updates (gitWorld none (.success "") (.success "aaa") (.success "bbb")
        (.calledProcessError "boom" "") (.success "") true) =
      (some (UPDATE_STATUS "AHEAD", "Update detected (changed files could not be listed).", true),
       [.gitCmd ["git", "fetch"], .gitCmd ["git", "rev-parse", "HEAD"],
        .gitCmd ["git", "rev-parse", "@{u}"],
        .gitCmd ["git", "diff", "--name-only", pyStrip "aaa" ++ ".." ++ pyStrip "bbb"]]) :=
  listing_unavailable "aaa" "bbb" "boom" (by decide) (by decide)

end Yuuka

namespace Yuuka

/-- C5 counterexample: when a command exits non-zero with stderr and
stdout both empty after stripping, the error component is the empty
string — there is no nonempty generic-description fallback, contrary to
the claimed stderr-then-stdout-then-generic chain. -/
theorem runner_no_generic_fallback :
    ¬ ∃ e, (_run_git_command (gitWorld none (.calledProcessError "" "") (.success "")
        (.success "") (.success "") (.success "") true) ["git", "fetch"]).1.2 = some e
        ∧ e ≠ "" := by
  rintro ⟨e, he, hne⟩
  exact hne (Option.some.inj ((show (_run_git_command (gitWorld none
    (.calledProcessError "" "") (.success "") (.success "") (.success "") (.success "") true)
    ["git", "fetch"]).1.2 = some "" from rfl).symm.trans he)).symm

/-- C5 as amended: the runner returns `(strippedStdout, None)` on exit
code 0 and `(None, errorText)` otherwise, where on a non-zero exit
`errorText` is the stripped stderr, falling back to the stripped stdout
(and is therefore the empty string when both are empty: no generic
fallback exists for that case); a distinct fixed message is returned when
the executable is missing; `str(exc)` is returned for any other
exception; and every outcome produces one of the two uniform shapes —
nothing escapes as an exception. -/
theorem runner_contract (w : World) (cmd : List String) :
    (∀ out, w.run cmd = .success out →
        (_run_git_command w cmd).1 = (some (pyStrip out), none))
    ∧ (w.run cmd = .fileNotFound →
        (_run_git_command w cmd).1 =
          (none, some "Git executable not found. Please install Git and make sure it is on PATH."))
    ∧ (∀ se so, w.run cmd = .calledProcessError se so →
        (_run_git_command w cmd).1 =
          (none, some (if pyStrip se = "" then pyStrip so else pyStrip se)))
    ∧ (∀ m, w.run cmd = .otherException m →
        (_run_git_command w cmd).1 = (none, some m))
    ∧ ((∃ s, (_run_git_command w cmd).1 = (some s, none))
        ∨ (∃ e, (_run_git_command w cmd).1 = (none, some e))) := by
  refine ⟨?_, ?_, ?_, ?_, ?_⟩
  · intro out ho
    simp [_run_git_command, ho]
  · intro ho
    simp [_run_git_command, ho]
  · intro se so ho
    simp only [_run_git_command, ho]
    by_cases hc : pyStrip se = ""
    · simp [hc]
    · simp [hc, beq_eq_false_iff_ne.mpr hc]
  · intro m ho
    simp [_run_git_command, ho]
  · cases ho : w.run cmd with
    | success out => exact Or.inl ⟨pyStrip out, by simp [_run_git_command, ho]⟩
    | fileNotFound =>
      exact Or.inr ⟨"Git executable not found. Please install Git and make sure it is on PATH.",
        by simp [_run_git_command, ho]⟩
    | calledProcessError se so =>
      exact Or.inr ⟨if pyStrip se == "" then pyStrip so else pyStrip se,
        by simp [_run_git_command, ho]⟩
    | otherException m => exact Or.inr ⟨m, by simp [_run_git_command, ho]⟩

/-- Witness for C5 at one world exercising all four outcomes. -/
theorem runner_contract_witness :
    (_run_git_command (gitWorld none (.success " ok ") .fileNotFound
        (.calledProcessError "err" "fall") (.success "") (.otherException "boom") true)
        ["git", "fetch"]).1 = (some "ok", none)
    ∧ (_run_git_command (gitWorld none (.success " ok ") .fileNotFound
        (.calledProcessError "err" "fall") (.success "") (.otherException "boom") true)
        ["git", "rev-parse", "HEAD"]).1 =
      (none, some "Git executable not found. Please install Git and make sure it is on PATH.")
    ∧ (_run_git_command (gitWorld none (.success " ok ") .fileNotFound
        (.calledProcessError "err" "fall") (.success "") (.otherException "boom") true)
        ["git", "rev-parse", "@{u}"]).1 = (none, some "err")
    ∧ (_run_git_command (gitWorld none (.success " ok ") .fileNotFound
        (.calledProcessError "err" "fall") (.success "") (.otherException "boom") true)
        ["git", "pull", "--ff-only"]).1 = (none, some "boom") :=
  ⟨((runner_contract _ _).1 " ok " rfl).trans (by decide),
   (runner_contract _ _).2.1 rfl,
   ((runner_contract _ _).2.2.1 "err" "fall" rfl).trans (by decide),
   (runner_contract _ _).2.2.2.1 "boom" rfl⟩

end Yuuka

namespace Yuuka

/-- C8 counterexample: when the orchestrator file is absent the failure
is swallowed with NO log line — `_load_update_module` returns `None` and
`ensure_auto_update` falls through silently, contrary to the claim that
an absent file is "swallowed and logged". -/
theorem bootstrap_absent_is_silent :
    ensure_auto_update ⟨fun _ => none, false, true, .ok, ⟨true, none⟩⟩ =
      (⟨fun _ => none, false, true, .ok, ⟨true, none⟩⟩, []) := rfl

/-- C8 as amended: `ensure_auto_update` is total (no exception channel in
its result).  An absent orchestrator file, or an unusable import spec, is
swallowed silently with no log line and no state change; an exception
while executing the loaded module is swallowed with exactly one catch-all
log line, and the registration made just before execution is rolled back:
the module name maps to nothing afterwards (so a later call retries the
load path) while every other registry key is untouched; and a successful
load registers the loaded module under the fixed name. -/
theorem bootstrap_never_raises (st : BootState) :
    (st.modules _MODULE_NAME = none → st.updateFileExists = false →
        ensure_auto_update st = (st, []))
    ∧ (st.modules _MODULE_NAME = none → st.specOk = false →
        ensure_auto_update st = (st, []))
    ∧ (∀ msg, st.modules _MODULE_NAME = none → st.updateFileExists = true →
        st.specOk = true → st.execOutcome = .raises msg →
        (ensure_auto_update st).2 =
          [.logLine ("[Yuuka Auto Update] Skipping due to unexpected error: " ++ msg)]
        ∧ (ensure_auto_update st).1.modules _MODULE_NAME = none
        ∧ ∀ k, k ≠ _MODULE_NAME → (ensure_auto_update st).1.modules k = st.modules k)
    ∧ (st.modules _MODULE_NAME = none → st.updateFileExists = true → st.specOk = true →
        st.execOutcome = .ok →
        (ensure_auto_update st).1.modules _MODULE_NAME = some st.loadedModule) := by
  refine ⟨?_, ?_, ?_, ?_⟩
  · intro h1 h2
    simp [ensure_auto_update, _load_update_module, h1, h2]
  · intro h1 h2
    cases hf : st.updateFileExists <;>
      simp [ensure_auto_update, _load_update_module, h1, h2, hf]
  · intro msg h1 h2 h3 h4
    refine ⟨?_, ?_, ?_⟩
    · simp [ensure_auto_update, _load_update_module, h1, h2, h3, h4]
    · simp [ensure_auto_update, _load_update_module, h1, h2, h3, h4]
    · intro k hk
      simp only [ensure_auto_update, _load_update_module, h1, h2, h3, h4]
      simp [beq_eq_false_iff_ne.mpr hk]
      intro hkk
      exact absurd hkk hk
  · intro h1 h2 h3 h4
    cases hm : st.loadedModule.hasAutoUpdate <;>
      rcases hr : st.loadedModule.raisesOnCall with _ | msg <;>
        simp [ensure_auto_update, _load_update_module, h1, h2, h3, h4, hm, hr]

/-- Witness for C8 at a concrete state whose module execution raises
`"boom"`: the catch-all line is printed and the registry stays clean. -/
theorem bootstrap_never_raises_witness :
    (ensure_auto_update ⟨fun _ => none, true, true, .raises "boom", ⟨true, none⟩⟩).2 =
      [.logLine "[Yuuka Auto Update] Skipping due to unexpected error: boom"]
    ∧ (ensure_auto_update ⟨fun _ => none, true, true, .raises "boom",
        ⟨true, none⟩⟩).1.modules _MODULE_NAME = none := by
  have h := (bootstrap_never_raises ⟨fun _ => none, true, true, .raises "boom",
    ⟨true, none⟩⟩).2.2.1 "boom" rfl rfl rfl rfl
  exact ⟨h.1.trans (by decide), h.2.1⟩

/-- C9: a non-zero git exit with empty stderr and stdout yields the falsy
error `""`, which every caller's truthiness test treats as success: the
runner reports `(None, "")`; a silently failing fetch is ignored and the
check proceeds to the rev-parses; two silently failing rev-parses yield
`None` identifiers that compare equal, producing `UP_TO_DATE`; one
silently failing rev-parse yields a `None` identifier that renders as
`"None"` inside the diff range argument; and `perform_update` returns
`True` on a silently failing pull. -/
theorem empty_error_passes_truthiness :
    (_run_git_command (gitWorld none (.calledProcessError "" "") (.success "a") (.success "b")
        (.success "") (.success "") true) ["git", "fetch"]).1.2 = some ""
    ∧ (check_for_updates (gitWorld none (.calledProcessError "" "") (.success "a") (.success "b")
        (.success "") (.success "") true)).1
      = some (UPDATE_STATUS "AHEAD", "Update detected on remote branch.", false)
    ∧ check_for_updates (gitWorld none (.success "") (.calledProcessError "" "")
        (.calledProcessError "" "") (.success "") (.success "") true)
      = (some (UPDATE_STATUS "UP_TO_DATE", "Repository already up to date.", false),
         [.gitCmd ["git", "fetch"], .gitCmd ["git", "rev-parse", "HEAD"],
          .gitCmd ["git", "rev-parse", "@{u}"]])
    ∧ (check_for_updates (gitWorld none (.success "") (.calledProcessError "" "")
        (.success "abc") (.success "") (.success "") true)).2
      = [.gitCmd ["git", "fetch"], .gitCmd ["git", "rev-parse", "HEAD"],
         .gitCmd ["git", "rev-parse", "@{u}"], .gitCmd ["git", "diff", "--name-only", "None..abc"]]
    ∧ perform_update (gitWorld none (.success "") (.success "") (.success "") (.success "")
        (.calledProcessError "" "") true)
      = (true, [_log "Attempting to fast-forward repository with \x27git pull --ff-only\x27.",
                .gitCmd ["git", "pull", "--ff-only"],
                _log "Repository already up to date after pull."]) := by
  decide

/-- C10: the plugin-descriptor test is a raw suffix test on the whole
changed path, not a basename comparison: any parsed entry whose
characters end in `"plugin.json"` forces dependency-changed `True`. -/
theorem raw_suffix_classification (a b s p : String) (h : pyStrip a ≠ pyStrip b)
    (hp : p ∈ parseChangedFiles (pyStrip s)) (hs : pyEndsWith p "plugin.json" = true) :
    (check_for_updates (gitWorld none (.success "") (.success a) (.success b)
        (.success s) (.success "") true)).1
      = some (UPDATE_STATUS "AHEAD", "Update detected on remote branch.", true) := by
  have hc := check_ahead a b s h none "" (.success "") true
  rw [hc]
  have hd : ((parseChangedFiles (pyStrip s)).contains "requirements.txt"
      || (parseChangedFiles (pyStrip s)).any (fun name => pyEndsWith name "plugin.json")) = true := by
    rw [Bool.or_eq_true]
    exact Or.inr (List.any_eq_true.mpr ⟨p, hp, hs⟩)
  simp [hd]
  exact Or.inr ⟨p, hp, hs⟩

/-- Witness for C10: `"myplugin.json"` (basename not `plugin.json`) and
`"dir/xplugin.json"` (final segment not `plugin.json`) both classify as
dependency-changed. -/
theorem raw_suffix_classification_witness :
    ((check_for_updates (gitWorld none (.success "") (.success "aaa") (.success "bbb")
        (.success "myplugin.json") (.success "") true)).1
      = some (UPDATE_STATUS "AHEAD", "Update detected on remote branch.", true))
    ∧ ((check_for_updates (gitWorld none (.success "") (.success "aaa") (.success "bbb")
        (.success "dir/xplugin.json") (.success "") true)).1
      = some (UPDATE_STATUS "AHEAD", "Update detected on remote branch.", true)) :=
  ⟨raw_suffix_classification "aaa" "bbb" "myplugin.json" "myplugin.json"
      (by decide) (by decide) (by decide),
   raw_suffix_classification "aaa" "bbb" "dir/xplugin.json" "dir/xplugin.json"
      (by decide) (by decide) (by decide)⟩

end Yuuka
